import Mathlib

/-!
Verification of `docker_pull.py` (python-docker-pull): a shallow embedding of
the reference-parsing, manifest-negotiation and layer-assembly logic, with
theorems settling the spec claims.

Python dicts are modelled as ordered association lists (insertion order is
observable through `json.dump`), Python exceptions as a `PyError` type, and
network responses as explicit inputs.  `hashlib.sha256(...).hexdigest()` is
modelled by a full executable SHA-256 over byte lists.
-/

set_option maxRecDepth 20000

namespace DockerPull

/-! ### SHA-256 over byte lists (model of `hashlib.sha256(...).hexdigest()`) -/

/-- Truncate to 32 bits. -/
def m32 (x : Nat) : Nat := x % 4294967296

/-- 32-bit right rotation (argument assumed `< 2^32`). -/
def rotr (n x : Nat) : Nat := m32 ((x >>> n) ||| (x <<< (32 - n)))

/-- The 64 SHA-256 round constants. -/
def sha_k : List Nat :=
  [1116352408, 1899447441, 3049323471, 3921009573, 961987163, 1508970993,
   2453635748, 2870763221, 3624381080, 310598401, 607225278, 1426881987,
   1925078388, 2162078206, 2614888103, 3248222580, 3835390401, 4022224774,
   264347078, 604807628, 770255983, 1249150122, 1555081692, 1996064986,
   2554220882, 2821834349, 2952996808, 3210313671, 3336571891, 3584528711,
   113926993, 338241895, 666307205, 773529912, 1294757372, 1396182291,
   1695183700, 1986661051, 2177026350, 2456956037, 2730485921, 2820302411,
   3259730800, 3345764771, 3516065817, 3600352804, 4094571909, 275423344,
   430227734, 506948616, 659060556, 883997877, 958139571, 1322822218,
   1537002063, 1747873779, 1955562222, 2024104815, 2227730452, 2361852424,
   2428436474, 2756734187, 3204031479, 3329325298]

/-- The SHA-256 initial hash state. -/
def sha_h0 : List Nat :=
  [1779033703, 3144134277, 1013904242, 2773480762, 1359893119, 2600822924,
   528734635, 1541459225]

/-- `k` bytes of `n`, big-endian. -/
def beBytes : Nat → Nat → List Nat
  | 0, _ => []
  | k + 1, n => beBytes k (n / 256) ++ [n % 256]

/-- SHA-256 padding: append `0x80`, zero bytes, and the 64-bit bit length. -/
def padMessage (msg : List Nat) : List Nat :=
  let len := msg.length
  let padZeros := (55 + 64 - len % 64) % 64
  msg ++ [128] ++ List.replicate padZeros 0 ++ beBytes 8 (8 * len)

/-- Pack bytes into big-endian 32-bit words. -/
def bytesToWords : List Nat → List Nat
  | a :: b :: c :: d :: rest =>
      (((a * 256 + b) * 256 + c) * 256 + d) :: bytesToWords rest
  | _ => []

/-- One message-schedule extension step: append word `w.length` of the schedule. -/
def schedStep (w : List Nat) : List Nat :=
  let i := w.length
  let w15 := w.getD (i - 15) 0
  let w2 := w.getD (i - 2) 0
  let s0 := (rotr 7 w15) ^^^ (rotr 18 w15) ^^^ (w15 >>> 3)
  let s1 := (rotr 17 w2) ^^^ (rotr 19 w2) ^^^ (w2 >>> 10)
  w ++ [m32 (w.getD (i - 16) 0 + s0 + w.getD (i - 7) 0 + s1)]

/-- Extend 16 message words to the 64-word schedule. -/
def schedule (ws : List Nat) : List Nat :=
  (List.range 48).foldl (fun w _ => schedStep w) ws

/-- One SHA-256 compression round on the 8-word working state. -/
def roundStep (w : List Nat) (st : List Nat) (i : Nat) : List Nat :=
  match st with
  | [a, b, c, d, e, f, g, h] =>
      let s1 := (rotr 6 e) ^^^ (rotr 11 e) ^^^ (rotr 25 e)
      let ch := (e &&& f) ^^^ ((e ^^^ 4294967295) &&& g)
      let t1 := m32 (h + s1 + ch + sha_k.getD i 0 + w.getD i 0)
      let s0 := (rotr 2 a) ^^^ (rotr 13 a) ^^^ (rotr 22 a)
      let mj := (a &&& b) ^^^ (a &&& c) ^^^ (b &&& c)
      let t2 := m32 (s0 + mj)
      [m32 (t1 + t2), a, b, c, m32 (d + t1), e, f, g]
  | other => other

/-- Compress one 16-word block into the hash state. -/
def compressBlock (h : List Nat) (ws16 : List Nat) : List Nat :=
  let w := schedule ws16
  let fin := (List.range 64).foldl (roundStep w) h
  List.zipWith (fun x y => m32 (x + y)) h fin

/-- Fold the blocks (fuel = number of 16-word blocks). -/
def sha256Go : Nat → List Nat → List Nat → List Nat
  | 0, h, _ => h
  | n + 1, h, ws => sha256Go n (compressBlock h (ws.take 16)) (ws.drop 16)

/-- SHA-256 digest (32 bytes) of a byte list. -/
def sha256Bytes (msg : List Nat) : List Nat :=
  let ws := bytesToWords (padMessage msg)
  (sha256Go (ws.length / 16) sha_h0 ws).foldr (fun w acc => beBytes 4 w ++ acc) []

/-- Lowercase hex digit. -/
def hexDigitChar (n : Nat) : Char :=
  if n < 10 then Char.ofNat (48 + n) else Char.ofNat (87 + n)

/-- Lowercase hex encoding of a byte. -/
def byteToHex (b : Nat) : List Char := [hexDigitChar (b / 16), hexDigitChar (b % 16)]

/-- Hex digest of a byte list, as `hashlib`'s `.hexdigest()` produces. -/
def sha256hex (msg : List Nat) : String :=
  ⟨(sha256Bytes msg).foldr (fun b acc => byteToHex b ++ acc) []⟩

/-- UTF-8 encoding of one character (model of Python `str.encode('utf-8')`). -/
def utf8Char (c : Char) : List Nat :=
  let n := c.toNat
  if n < 128 then [n]
  else if n < 2048 then [192 + n / 64, 128 + n % 64]
  else if n < 65536 then [224 + n / 4096, 128 + (n / 64) % 64, 128 + n % 64]
  else [240 + n / 262144, 128 + (n / 4096) % 64, 128 + (n / 64) % 64, 128 + n % 64]

/-- UTF-8 bytes of a string. -/
def utf8Bytes (s : String) : List Nat :=
  s.data.foldr (fun c acc => utf8Char c ++ acc) []

example : sha256hex (utf8Bytes "") =
    "e3b0c44298fc1c149afbf4c8996fb92427ae41e4649b934ca495991b7852b855" := by
  decide

example : sha256hex (utf8Bytes "abc") =
    "ba7816bf8f01cfea414140de5dae2223b00361a396177a9cb410ff61f20015ad" := by
  decide

/-! ### Reference parsing: `parse_image` (docker_pull.py lines 110-140) and the
`ImageData` dataclass (lines 32-51). -/

structure ImageData where
  imgparts : List String
  registry : String
  repo : String
  img : String
  tag : String
  repository : String
deriving Repr, DecidableEq

/-- Python `s.split(sep)` for a one-character separator, on character lists:
splitting always yields at least one (possibly empty) part. -/
def splitChars (sep : Char) : List Char → List (List Char)
  | [] => [[]]
  | c :: cs =>
    let rest := splitChars sep cs
    if c = sep then [] :: rest
    else
      match rest with
      | r :: rs => (c :: r) :: rs
      | [] => [[c]]

/-- Python `s.split(sep)` for the one-character separators the code uses. -/
def pySplit (s : String) (sep : Char) : List String :=
  (splitChars sep s.data).map (fun cs => ⟨cs⟩)

/-- Python `c in s` for a single character. -/
def pyContains (s : String) (c : Char) : Bool := s.data.contains c

/-- Python `sep.join(parts)`. -/
def pyJoin (sep : String) : List String → String
  | [] => ""
  | [x] => x
  | x :: y :: xs => x ++ sep ++ pyJoin sep (y :: xs)

/-- Python `s.replace(a, b)` for one-character `a` and `b`. -/
def pyReplaceChar (s : String) (a b : Char) : String :=
  ⟨s.data.map (fun c => if c = a then b else c)⟩

/-- Python `a, b = s.split(sep)`: succeeds only when the split has exactly two
parts, otherwise a `ValueError` is raised (modelled as `none`). -/
def split2 (s : String) (sep : Char) : Option (String × String) :=
  match pySplit s sep with
  | [a, b] => some (a, b)
  | _ => none

def parse_image (image : String) : ImageData :=
  let imgparts := pySplit image '/'
  let lastPart := imgparts.getLastD ""
  let it :=
    match split2 lastPart '@' with
    | some p => p
    | none =>
      match split2 lastPart ':' with
      | some p => p
      | none => (lastPart, "latest")
  let img := it.1
  let tag := it.2
  let firstPart := imgparts.headD ""
  let rr :=
    if imgparts.length > 1
        ∧ (pyContains firstPart '.' = true ∨ pyContains firstPart ':' = true) then
      (firstPart, pyJoin "/" ((imgparts.drop 1).dropLast))
    else
      ("registry-1.docker.io",
       if imgparts.dropLast.length ≠ 0 then pyJoin "/" imgparts.dropLast
       else "library")
  { imgparts := imgparts, registry := rr.1, repo := rr.2, img := img, tag := tag
  , repository := rr.2 ++ "/" ++ img }

def ImageData.base_url (d : ImageData) : String := "https://" ++ d.registry ++ "/v2"

def ImageData.manifest_url (d : ImageData) : String :=
  d.base_url ++ "/" ++ d.repository ++ "/manifests/" ++ d.tag

def ImageData.blobs_url (d : ImageData) : String :=
  d.base_url ++ "/" ++ d.repository ++ "/blobs"

/-! ### Synthetic layer id: `get_fake_layerid` (lines 274-282).

The Python function takes no arguments.  The string it hashes is the LITERAL
`"{parentid}\n{ublob}\n"`: the `f` string-interpolation marker is absent, so
the braces and the names inside them are hashed verbatim and the result is
one fixed hex digest, independent of any parent id or blob digest. -/

def get_fake_layerid : String :=
  sha256hex (utf8Bytes "{parentid}\n{ublob}\n")

/-- The id formula as the spec words it: hex SHA-256 of
`parentId + "\n" + digest + "\n"` (for comparison with `get_fake_layerid`). -/
def spec_fake_layerid (parentid ublob : String) : String :=
  sha256hex (utf8Bytes (parentid ++ "\n" ++ ublob ++ "\n"))

/-! ### JSON values and Python dict operations.

Python dicts preserve insertion order (observable through `json.dump`), so an
object is an ordered association list with unique keys. -/

inductive JVal where
  | null
  | boolean (b : Bool)
  | num (n : Int)
  | str (s : String)
  | arr (elems : List JVal)
  | obj (fields : List (String × JVal))

/-- Python `del d[k]`: removes the key, `KeyError` (modelled `none`) if absent. -/
def delKey (fields : List (String × JVal)) (k : String) :
    Option (List (String × JVal)) :=
  if fields.any (fun p => p.1 == k) then some (fields.filter (fun p => p.1 != k))
  else none

/-- Python `d[k] = v`: overwrite in place if the key exists, else append. -/
def setKey (fields : List (String × JVal)) (k : String) (v : JVal) :
    List (String × JVal) :=
  if fields.any (fun p => p.1 == k) then
    fields.map (fun p => if p.1 == k then (k, v) else p)
  else fields ++ [(k, v)]

/-- Python exceptions reachable in the modelled code paths. -/
inductive PyError where
  | nameError (missing : String)
  | keyError (key : String)
  | indexError
  | fileExistsError (path : String)
deriving Repr, DecidableEq

/-- `get_base_json` (lines 174-201), modelled as the parsed value of the JSON
string it serialises: the fixed placeholder config object. -/
def container_config : List (String × JVal) :=
  [("Hostname", .str ""), ("Domainname", .str ""), ("User", .str ""),
   ("AttachStdin", .boolean false), ("AttachStdout", .boolean false),
   ("AttachStderr", .boolean false), ("Tty", .boolean false),
   ("OpenStdin", .boolean false), ("StdinOnce", .boolean false),
   ("Env", .null), ("Cmd", .null), ("Image", .str ""), ("Volumes", .null),
   ("WorkingDir", .str ""), ("Entrypoint", .null), ("OnBuild", .null),
   ("Labels", .null)]

def get_base_json : JVal :=
  .obj [("created", .str "1970-01-01T00:00:00Z"),
        ("container_config", .obj container_config)]

/-! ### Layer blob fetch fallback: `layer_error` (lines 253-271).

The function is entered when the primary blob GET was not HTTP 200.  It
indexes `layer['urls'][0]` unconditionally (`KeyError` if the manifest entry
has no `urls` key, `IndexError` if the list is empty) and, when the fallback
response is also not 200, builds an error message that reads the name
`ublob` — which is a local of `func_layers`, not in scope here — so a
`NameError` is raised before anything is printed.  Fallback response statuses
are supplied as a function of the URL. -/

structure Layer where
  digest : String
  urls : Option (List String)

def layer_error (layer : Layer) (fallbackStatus : String → Nat) :
    Except PyError Nat :=
  match layer.urls with
  | none => .error (.keyError "urls")
  | some [] => .error .indexError
  | some (u :: _) =>
      if fallbackStatus u == 200 then .ok 200
      else .error (.nameError "ublob")

/-! ### Layer assembly: `func_layers` (lines 285-377).

Pure I/O steps (the VERSION file, the chunked download, the gzip
decompression, the progress bar) are elided; what is tracked is every
decision and every persisted JSON datum: the directories created
(`mkdir` raises `FileExistsError` on a repeat name), the entries appended to
`content[0]['Layers']`, the per-layer `json` records written, and the
`parentid` threading.  Primary blob GET statuses are supplied as a function
of the digest, the parsed image config blob (`json.loads(confresp.content)`)
as an association list.

Line 364 reads the name `empty_json`, which is a local variable of `main`
(line 472) and is not in scope inside `func_layers`, so every layer that is
not digest-equal to the last one raises `NameError('empty_json')`. -/

structure FLState where
  createdDirs : List String
  layersEntries : List String
  written : List (String × JVal)
  parentid : String

def initFLState : FLState := ⟨[], [], [], ""⟩

def process_layer (lastDigest : String) (blobStatus fallbackStatus : String → Nat)
    (confFields : List (String × JVal)) (st : FLState) (layer : Layer) :
    Except PyError FLState := do
  let ublob := layer.digest
  let fake_layerid := get_fake_layerid
  if st.createdDirs.contains fake_layerid then
    throw (.fileExistsError fake_layerid)
  let dirs := st.createdDirs ++ [fake_layerid]
  let _ ← if blobStatus ublob == 200 then pure 200
          else layer_error layer fallbackStatus
  let entries := st.layersEntries ++ [fake_layerid ++ "/layer.tar"]
  let fields ←
    if lastDigest == ublob then do
      let f1 ← match delKey confFields "history" with
        | some f => pure f
        | none => throw (.keyError "history")
      match delKey f1 "rootfs" with
      | some f => pure f
      | none =>
        match delKey f1 "rootfS" with
        | some f => pure f
        | none => throw (.keyError "rootfS")
    else
      throw (.nameError "empty_json")
  let fields := setKey fields "id" (.str fake_layerid)
  let fields := if st.parentid ≠ "" then setKey fields "parent" (.str st.parentid)
                else fields
  pure ⟨dirs, entries, st.written ++ [(fake_layerid, .obj fields)], fake_layerid⟩

def func_layers_go (lastDigest : String) (blobStatus fallbackStatus : String → Nat)
    (confFields : List (String × JVal)) :
    FLState → List Layer → Except PyError FLState
  | st, [] => .ok st
  | st, layer :: rest =>
      match process_layer lastDigest blobStatus fallbackStatus confFields st layer with
      | .error e => .error e
      | .ok st2 => func_layers_go lastDigest blobStatus fallbackStatus confFields st2 rest

/-- `func_layers` returns the loop variable `fake_layerid` (line 377); with an
empty layer list that local was never bound (`NameError`), otherwise it is the
constant `get_fake_layerid`. -/
def func_layers (layers : List Layer) (blobStatus fallbackStatus : String → Nat)
    (confFields : List (String × JVal)) : Except PyError (FLState × String) :=
  match layers with
  | [] => .error (.nameError "fake_layerid")
  | _ =>
    match func_layers_go (layers.getLastD ⟨"", none⟩).digest blobStatus
        fallbackStatus confFields initFLState layers with
    | .error e => .error e
    | .ok st => .ok (st, get_fake_layerid)

/-! ### Manifest fallback: `manifest_error` (lines 143-171).

The function prints the failure line and the response body, switches the
accept type to the manifest-list media type and fetches a fresh token
(line 153).  Line 155 then builds the retry URL from the names `registry`
and `tag`, neither of which is bound in this function or at module scope
(they are locals of other functions), so a `NameError` is raised before the
retry GET is ever issued; lines 156-171 (the candidate enumeration and
`sys.exit(1)`) are unreachable. -/

structure ManifestErrorTrace where
  printed : List String
  tokenAcceptType : Option String
  retriedManifestGet : Bool
  raised : Option PyError
deriving Repr

def manifest_error (repository : String) (statusCode : Nat) (respContent : String) :
    ManifestErrorTrace :=
  { printed := ["[-] Cannot fetch manifest for " ++ repository ++ " [HTTP "
                  ++ toString statusCode ++ "]", respContent]
  , tokenAcceptType := some "application/vnd.docker.distribution.manifest.list.v2+json"
  , retriedManifestGet := false
  , raised := some (.nameError "registry") }

/-! ### `main`'s RepoTags construction (lines 466-471).

When the reference has a namespace prefix (`len(image_data.imgparts[:-1]) != 0`)
line 467 reads the bare names `imgparts`, `img` and `tag`, none of which is
bound in `main` (they are locals of `parse_image`), so a `NameError` is
raised; only the bare-name branch (line 469) completes, producing the single
entry `img + ':' + tag`. -/

def build_repo_tags (d : ImageData) : Except PyError (List String) :=
  if d.imgparts.dropLast.length ≠ 0 then .error (.nameError "imgparts")
  else .ok [d.img ++ ":" ++ d.tag]

/-! ### `get_content_json` (lines 391-411): the `repositories` file content. -/

def get_content_json (d : ImageData) (fake_layerid : String) : JVal :=
  if d.imgparts.dropLast.length ≠ 0 then
    .obj [(pyJoin "/" d.imgparts.dropLast ++ "/" ++ d.img,
           .obj [(d.tag, .str fake_layerid)])]
  else
    .obj [(d.img, .obj [(d.tag, .str fake_layerid)])]

/-- Top-level keys of a JSON object. -/
def topKeys : JVal → List String
  | .obj fields => fields.map (fun p => p.1)
  | _ => []

/-! ### `save_image_tar` (lines 379-388): the archive name. -/

def docker_tar_name (repo img : String) : String :=
  pyReplaceChar repo '/' '_' ++ "_" ++ img ++ ".tar"

/-! ### Concrete fixtures used to evaluate the model. -/

/-- A parsed image config blob with the keys the last-layer branch touches. -/
def confSample : List (String × JVal) :=
  [("history", JVal.arr []), ("rootfs", JVal.obj []),
   ("architecture", JVal.str "amd64")]

def layerA : Layer := ⟨"sha256:aaaa", none⟩

def layerB : Layer := ⟨"sha256:bbbb", none⟩

/-- Every blob GET answers HTTP 200. -/
def ok200 : String → Nat := fun _ => 200

/-! ### Helper lemmas shared across claims. -/

theorem parse_image_imgparts (image : String) :
    (parse_image image).imgparts = pySplit image '/' := rfl

theorem parse_image_repository (image : String) :
    (parse_image image).repository
      = (parse_image image).repo ++ "/" ++ (parse_image image).img := rfl

/-! ### Claim theorems. -/

/-- C1: the claim says each synthetic layer ID is the hex SHA-256 of
`parentId + "\n" + digest + "\n"`, with distinct digests giving distinct IDs.
In the code `get_fake_layerid` takes no arguments and hashes the literal
template `"{parentid}\n{ublob}\n"` (the f-prefix is missing), so runs over
two different single-layer manifests both return the same constant ID, which
differs from the spec formula's value, while the spec formula itself does
distinguish the two digests. -/
theorem c1_fake_layerid_ignores_inputs :
    (func_layers [layerA] ok200 ok200 confSample).map (fun p => p.2)
        = .ok get_fake_layerid
    ∧ (func_layers [layerB] ok200 ok200 confSample).map (fun p => p.2)
        = .ok get_fake_layerid
    ∧ get_fake_layerid ≠ spec_fake_layerid "" layerA.digest
    ∧ spec_fake_layerid "" layerA.digest ≠ spec_fake_layerid "" layerB.digest := by
  refine ⟨rfl, rfl, ?_, ?_⟩ <;> decide

/-- C2: the claim says the first N-1 layers persist the fixed placeholder
config plus id/parent and only the last embeds the config blob minus
`history` and `rootfs`/`rootfS`.  In the code the placeholder branch
(line 364) reads `empty_json`, a local of `main` that is unbound inside
`func_layers`, so any manifest whose first layer is not digest-equal to the
last raises `NameError('empty_json')` and persists nothing; only a 1-layer
manifest succeeds, with the last-layer record as described. -/
theorem c2_placeholder_branch_name_error :
    func_layers [layerA, layerB] ok200 ok200 confSample
        = .error (.nameError "empty_json")
    ∧ func_layers [layerA] ok200 ok200 confSample
        = .ok (⟨[get_fake_layerid], [get_fake_layerid ++ "/layer.tar"],
                [(get_fake_layerid,
                  .obj [("architecture", .str "amd64"),
                        ("id", .str get_fake_layerid)])],
                get_fake_layerid⟩, get_fake_layerid) := ⟨rfl, rfl⟩

/-- C3: the claim says a failed manifest GET leads to a printed failure, a
fresh manifest-list token, a retry of the manifest URL and enumeration of
manifest-list candidates.  In the code `manifest_error` prints the failure
and body and refetches the token, but line 155 reads the unbound names
`registry` and `tag`, so a `NameError` is raised before the retry GET is
ever issued. -/
theorem c3_manifest_retry_never_issued :
    (manifest_error "library/nginx" 404 "manifest unknown").printed
        = ["[-] Cannot fetch manifest for library/nginx [HTTP 404]",
           "manifest unknown"]
    ∧ (manifest_error "library/nginx" 404 "manifest unknown").tokenAcceptType
        = some "application/vnd.docker.distribution.manifest.list.v2+json"
    ∧ (manifest_error "library/nginx" 404 "manifest unknown").retriedManifestGet
        = false
    ∧ (manifest_error "library/nginx" 404 "manifest unknown").raised
        = some (.nameError "registry") := ⟨rfl, rfl, rfl, rfl⟩

/-- C4 counterexample: the claim quantifies over every reference string whose
first slash-separated segment contains `.` or `:`.  The single-segment
reference `"nginx:latest"` has a first segment containing `:`, yet
`parse_image` does not use it as the registry host (the code additionally
requires more than one segment). -/
theorem c4_single_segment_counterexample :
    pyContains ((pySplit "nginx:latest" '/').headD "") ':' = true
    ∧ (parse_image "nginx:latest").registry ≠ "nginx:latest"
    ∧ (parse_image "nginx:latest").registry = "registry-1.docker.io" := by
  refine ⟨rfl, ?_, rfl⟩
  decide

/-- C5: the claim says every successful run, with or without a namespace
prefix, writes a manifest.json whose RepoTags holds exactly one
fully-qualified string.  In the code, any reference with a namespace prefix
makes `main` read the unbound names `imgparts`/`img`/`tag` (line 467) and
raise `NameError` before manifest.json is written; only bare references
reach the writing step, and their single RepoTags entry is `img:tag` with no
repository prefix. -/
theorem c5_repo_tags_name_error :
    build_repo_tags (parse_image "library/nginx:stable")
        = .error (.nameError "imgparts")
    ∧ build_repo_tags (parse_image "nginx") = .ok ["nginx:latest"]
    ∧ (parse_image "nginx").repo ++ "/" ++ (parse_image "nginx").img ++ ":"
        ++ (parse_image "nginx").tag ≠ "nginx:latest" := by
  refine ⟨rfl, rfl, ?_⟩
  decide

/-- C6: the claim says a failed blob GET retries the first fallback URL if
present and, when that also fails, prints a diagnostic with the HTTP status
and body before exiting non-zero.  In the code `layer_error` indexes
`layer['urls'][0]` unconditionally (`KeyError` when the key is absent) and
its error message reads `ublob`, a local of `func_layers` unbound there, so
a failing fallback raises `NameError('ublob')` before any diagnostic is
printed. -/
theorem c6_layer_fallback_name_error :
    layer_error ⟨"sha256:cccc", some ["https://cdn.example.com/blob"]⟩
        (fun _ => 503) = .error (.nameError "ublob")
    ∧ layer_error ⟨"sha256:cccc", none⟩ (fun _ => 503)
        = .error (.keyError "urls")
    ∧ func_layers [⟨"sha256:cccc", some ["https://cdn.example.com/blob"]⟩]
        (fun _ => 404) (fun _ => 503) confSample
        = .error (.nameError "ublob") := ⟨rfl, rfl, rfl⟩

/-- C7: the claim says the first layer's persisted record has no `parent`
key and every later record's `parent` equals the preceding record's `id`.
For a 1-layer manifest the single record indeed carries only the config keys
plus `id` and no `parent`; but for every manifest of two or more layers
`func_layers` raises `NameError('empty_json')` on the first layer (line 364)
before persisting any record, so no run ever produces the claimed chain of
records. -/
theorem c7_parent_chain :
    (func_layers [layerA] ok200 ok200 confSample).map
        (fun p => p.1.written.map (fun r => topKeys r.2))
      = .ok [["architecture", "id"]]
    ∧ func_layers [layerA, layerB] ok200 ok200 confSample
      = .error (.nameError "empty_json") := ⟨rfl, rfl⟩

/-- C8 counterexample: the claim says the single `repositories` key is
`repositoryPath + "/" + imageName` with `repositoryPath` defaulting to
`library` for unqualified names.  For the bare reference `"nginx"` the
parsed repo is `"library"` but `get_content_json` keys the map by the bare
image name `"nginx"`, not `"library/nginx"`. -/
theorem c8_bare_name_counterexample :
    (parse_image "nginx").repo = "library"
    ∧ topKeys (get_content_json (parse_image "nginx") "deadbeef")
        ≠ [(parse_image "nginx").repo ++ "/" ++ (parse_image "nginx").img]
    ∧ topKeys (get_content_json (parse_image "nginx") "deadbeef") = ["nginx"] := by
  refine ⟨?_, ?_, ?_⟩ <;> decide

/-- C9: the claim says the produced manifest.json's Layers array has exactly
N entries in manifest order.  A 1-layer manifest does append its single
`<id>/layer.tar` entry, but every manifest of two or more layers aborts with
`NameError('empty_json')` inside `func_layers`, so `main` never writes
manifest.json at all for N ≥ 2. -/
theorem c9_layers_entries :
    (func_layers [layerA] ok200 ok200 confSample).map (fun p => p.1.layersEntries)
        = .ok [get_fake_layerid ++ "/layer.tar"]
    ∧ func_layers [layerA, layerB] ok200 ok200 confSample
        = .error (.nameError "empty_json") := ⟨rfl, rfl⟩

/-- C4 (amended): for every reference string with at least two
slash-separated segments, if the first segment contains `.` or `:` it is used
verbatim as the registry host and the namespace is joined only from the
strictly later segments, and otherwise the default public registry host is
assumed and the first segment is part of the namespace (joined from all
segments before the last). -/
theorem c4_registry_heuristic (image : String)
    (h : 2 ≤ (pySplit image '/').length) :
    ((pyContains ((pySplit image '/').headD "") '.' = true
        ∨ pyContains ((pySplit image '/').headD "") ':' = true) →
      (parse_image image).registry = (pySplit image '/').headD ""
      ∧ (parse_image image).repo
          = pyJoin "/" (((pySplit image '/').drop 1).dropLast))
    ∧ ((pyContains ((pySplit image '/').headD "") '.' = false
        ∧ pyContains ((pySplit image '/').headD "") ':' = false) →
      (parse_image image).registry = "registry-1.docker.io"
      ∧ (parse_image image).repo = pyJoin "/" (pySplit image '/').dropLast) := by
  have h1 : (pySplit image '/').length > 1 := h
  constructor
  · intro hc
    constructor
    · simp only [parse_image]
      rw [if_pos ⟨h1, hc⟩]
    · simp only [parse_image]
      rw [if_pos ⟨h1, hc⟩]
  · intro hc
    have hcond : ¬((pySplit image '/').length > 1
        ∧ (pyContains ((pySplit image '/').headD "") '.' = true
           ∨ pyContains ((pySplit image '/').headD "") ':' = true)) := by
      rintro ⟨-, h' | h'⟩
      · rw [hc.1] at h'; exact Bool.false_ne_true h'
      · rw [hc.2] at h'; exact Bool.false_ne_true h'
    have hne : (pySplit image '/').dropLast.length ≠ 0 := by
      have := List.length_dropLast (pySplit image '/')
      omega
    constructor
    · simp only [parse_image]
      rw [if_neg hcond]
    · simp only [parse_image]
      rw [if_neg hcond, if_pos hne]

theorem c4_registry_heuristic_witness :
    (parse_image "myregistry.example.com:5000/team/app").registry
      = (pySplit "myregistry.example.com:5000/team/app" '/').headD "" :=
  ((c4_registry_heuristic "myregistry.example.com:5000/team/app" (by decide)).1
    (Or.inl (by decide))).1

/-- C8 (amended): for every parsed reference the `repositories` object holds
exactly one top-level key — the slash-joined namespace segments followed by
`/` and the image name when the reference has at least two slash-separated
segments, and the bare image name (no `library` default) otherwise — mapping
the tag to the layer id returned by the layer assembly. -/
theorem c8_repositories_single_key (ref fid : String) :
    get_content_json (parse_image ref) fid
      = .obj [((if 2 ≤ (pySplit ref '/').length then
                  pyJoin "/" (pySplit ref '/').dropLast ++ "/" ++ (parse_image ref).img
                else (parse_image ref).img),
               .obj [((parse_image ref).tag, .str fid)])] := by
  by_cases h : 2 ≤ (pySplit ref '/').length
  · have hne : (parse_image ref).imgparts.dropLast.length ≠ 0 := by
      rw [parse_image_imgparts]
      have := List.length_dropLast (pySplit ref '/')
      omega
    unfold get_content_json
    rw [if_pos hne, if_pos h, parse_image_imgparts]
  · have heq : (parse_image ref).imgparts.dropLast.length = 0 := by
      rw [parse_image_imgparts]
      have := List.length_dropLast (pySplit ref '/')
      omega
    unfold get_content_json
    rw [if_neg (not_not_intro heq), if_neg h]

/-- C10: for every reference of exactly two slash-separated segments whose
first segment contains `.` or `:` (registry host directly followed by the
image name), the parsed namespace is the empty string, the repository used
in manifest/blob URLs is `"/" + imageName` with a leading separator, and the
archive name produced by `save_image_tar` is `"_" + imageName + ".tar"` with
a leading underscore standing for the empty namespace. -/
theorem c10_registry_only_reference (ref : String)
    (h2 : (pySplit ref '/').length = 2)
    (hc : pyContains ((pySplit ref '/').headD "") '.' = true
          ∨ pyContains ((pySplit ref '/').headD "") ':' = true) :
    (parse_image ref).repo = ""
    ∧ (parse_image ref).repository = "/" ++ (parse_image ref).img
    ∧ docker_tar_name (parse_image ref).repo (parse_image ref).img
        = "_" ++ (parse_image ref).img ++ ".tar" := by
  have h1 : (pySplit ref '/').length > 1 := by omega
  have hrepo : (parse_image ref).repo = "" := by
    simp only [parse_image]
    rw [if_pos ⟨h1, hc⟩]
    obtain ⟨a, b, hab⟩ := List.length_eq_two.mp h2
    rw [hab]
    rfl
  refine ⟨hrepo, ?_, ?_⟩
  · rw [parse_image_repository, hrepo]
    rfl
  · rw [hrepo]
    rfl

theorem c10_registry_only_reference_witness :
    (parse_image "myreg.io/app").repo = "" :=
  (c10_registry_only_reference "myreg.io/app" (by decide) (Or.inl (by decide))).1

end DockerPull
